import Mathlib

/-!
Verification development for the kubeconfig controller of a cluster
convergence operator. The Go sources under `pkg/controllers` are shallowly
embedded: pure functions become Lean functions, the store-backed reconcile
loop becomes explicit state passing over a store value, and fallible calls
return `Except`. Go maps and the Kubernetes store are modelled as
association lists keyed by strings; machine byte strings are modelled as
Lean `String`s.
-/

set_option autoImplicit false

namespace CapiOperator

/-! ### Generic association-list helpers (model of Go maps / store keyed by name) -/

/-- First-match lookup in an association list, mirroring map indexing. -/
def lookupAssoc {α : Type} (l : List (String × α)) (k : String) : Option α :=
  match l with
  | [] => none
  | (k', v) :: t => if k' = k then some v else lookupAssoc t k

/-- Replace the value of the first entry with key `k`, leaving all other
entries untouched. -/
def replaceAssoc {α : Type} (l : List (String × α)) (k : String) (v : α) :
    List (String × α) :=
  match l with
  | [] => []
  | (k', v') :: t => if k' = k then (k', v) :: t else (k', v') :: replaceAssoc t k v

/-- Number of entries carrying key `k`. -/
def countKey {α : Type} (l : List (String × α)) (k : String) : Nat :=
  (l.filter (fun p => p.1 = k)).length

/-! ### ASCII lowercasing (model of Go `strings.ToLower` on ASCII data) -/

/-- Lowercase a single ASCII character; other characters are unchanged.
Models Go `strings.ToLower` restricted to the ASCII range, which covers
all platform-type identifiers. -/
def goCharToLower (c : Char) : Char :=
  if 'A' ≤ c ∧ c ≤ 'Z' then Char.ofNat (c.toNat + 32) else c

/-- Lowercase a string character by character (ASCII model of `strings.ToLower`). -/
def goToLower (s : String) : String :=
  String.mk (s.toList.map goCharToLower)

/-- Two character lists that agree up to ASCII letter case. -/
def asciiCaseVariantChars : List Char → List Char → Bool
  | [], [] => true
  | a :: ta, b :: tb => goCharToLower a == goCharToLower b && asciiCaseVariantChars ta tb
  | _, _ => false

/-- Two strings that differ only in ASCII letter case. -/
def asciiCaseVariant (s t : String) : Bool :=
  asciiCaseVariantChars s.toList t.toList

/-! ### Standard base64 decoding (model of Go `base64.StdEncoding.DecodeString`) -/

/-- Value of one character of the standard base64 alphabet. -/
def base64Val (c : Char) : Option Nat :=
  if 'A' ≤ c ∧ c ≤ 'Z' then some (c.toNat - 65)
  else if 'a' ≤ c ∧ c ≤ 'z' then some (c.toNat - 71)
  else if '0' ≤ c ∧ c ≤ '9' then some (c.toNat + 4)
  else if c = '+' then some 62
  else if c = '/' then some 63
  else none

/-- Decode base64 input four characters at a time; padding `=` may close
the final quartet only. Returns the decoded bytes, or `none` on malformed
input (wrong length, stray character, interior padding). -/
def base64DecodeChunks : List Char → Option (List Nat)
  | [] => some []
  | a :: b :: c :: d :: rest =>
    match base64Val a, base64Val b with
    | some va, some vb =>
      if c = '=' then
        if d = '=' ∧ rest = [] then some [va * 4 + vb / 16] else none
      else
        match base64Val c with
        | some vc =>
          if d = '=' then
            if rest = [] then some [va * 4 + vb / 16, vb % 16 * 16 + vc / 4] else none
          else
            match base64Val d, base64DecodeChunks rest with
            | some vd, some bs =>
              some ((va * 4 + vb / 16) :: (vb % 16 * 16 + vc / 4) :: (vc % 4 * 64 + vd) :: bs)
            | _, _ => none
        | none => none
    | _, _ => none
  | _ => none

/-- Model of Go `string(base64.StdEncoding.DecodeString(s))`: decoded bytes
reassembled into a string, or `none` on a decode error. -/
def base64Decode (s : String) : Option String :=
  (base64DecodeChunks s.toList).map (fun bs => String.mk (bs.map Char.ofNat))

/-! ### Well-known names

`serviceAccountName` is declared in `pkg/controllers/kubeconfig/kubeconfig.go`.
The remaining constants live in parts of `pkg/controllers` and the imported
cluster-api library that are outside the excerpted sources; they are
modelled from the spec (fixed well-known singleton names, the fixed managed
namespace, the secret label/type of the cluster-api library). Their exact
string values are not pinned by the spec and no claim depends on them. -/

/-- Service-account identity used as the auth entry name (kubeconfig.go). -/
def serviceAccountName : String := "cluster-capi-operator"

/-- Modelled from the spec: the fixed managed namespace every managed record
lives in (constant `controllers.DefaultManagedNamespace`, defined outside
the excerpt). -/
def DefaultManagedNamespace : String := "openshift-cluster-api"

/-- Modelled from the spec: fixed well-known name of the singleton primary
Infrastructure record (constant `controllers.InfrastructureResourceName`,
defined outside the excerpt). -/
def InfrastructureResourceName : String := "cluster"

/-- Modelled from the spec: fixed well-known name of the ClusterOperator
singleton watched by `clusterOperatorPredicates` (unexported constant
`clusterOperatorName`, defined outside the excerpt). -/
def clusterOperatorName : String := "cluster-capi-operator"

/-- Modelled from the spec: fixed well-known name of the Infrastructure
singleton watched by `infrastructurePredicates` (unexported constant
`infrastructureResourceName`, defined outside the excerpt). -/
def infrastructureResourceName : String := "cluster"

/-- Modelled from the spec: fixed well-known name of the FeatureGate
singleton watched by `featureGatePredicates` (unexported constant
`externalFeatureGateName`, defined outside the excerpt). -/
def externalFeatureGateName : String := "cluster"

/-- Label key binding the generated secret to its cluster
(cluster-api library constant `clusterv1.ClusterLabelName`). -/
def ClusterLabelName : String := "cluster.x-k8s.io/cluster-name"

/-- Secret type of cluster-api managed secrets
(cluster-api library constant `clusterv1.ClusterSecretType`). -/
def ClusterSecretType : String := "cluster.x-k8s.io/secret"

/-! ### The Derivation Function (`generateKubeconfig`)

The implementation file of `generateKubeconfig` is outside the excerpted
sources; only its unit tests and its caller are available. The definitions
below are modelled from the spec (§4.2 Derivation Function, §8 scenario):
each of the four inputs is independently validated as non-empty with a
field-identifying error, and — as the §8 scenario with token `dGVzdA==`
yielding auth token `test` pins down — the token bytes are base64-decoded
into the auth entry. -/

/-- Inputs of the Derivation Function (struct `kubeconfigOptions`).
Byte slices are modelled as strings. -/
structure kubeconfigOptions where
  token : String
  caCert : String
  apiServerEnpoint : String
  clusterName : String
  deriving Repr, DecidableEq

/-- A named cluster entry of the derived document (endpoint + CA data). -/
structure ClusterEntry where
  server : String
  certificateAuthorityData : String
  deriving Repr, DecidableEq

/-- A named context entry of the derived document. `namespaceName` models
the `Namespace` field. -/
structure ContextEntry where
  cluster : String
  authInfo : String
  namespaceName : String
  deriving Repr, DecidableEq

/-- A named auth entry of the derived document (bearer token). -/
structure AuthInfoEntry where
  token : String
  deriving Repr, DecidableEq

/-- The Derived Configuration Document (the fields of `clientcmdapi.Config`
the program reads and writes); the maps are association lists. -/
structure KubeconfigDoc where
  clusters : List (String × ClusterEntry)
  contexts : List (String × ContextEntry)
  currentContext : String
  authInfos : List (String × AuthInfoEntry)
  deriving Repr, DecidableEq

/-- Field-identifying errors of the Derivation Function. -/
inductive GenError where
  | emptyToken
  | emptyCACert
  | emptyAPIServerEnpoint
  | emptyClusterName
  | tokenDecode
  deriving Repr, DecidableEq

/-- Whether a `GenError` reports an empty input field. -/
def GenError.emptyField : GenError → Bool
  | .emptyToken => true
  | .emptyCACert => true
  | .emptyAPIServerEnpoint => true
  | .emptyClusterName => true
  | .tokenDecode => false

/-- Modelled from the spec: the Derivation Function `generateKubeconfig`
(its implementation file is outside the excerpt). Validates all four
inputs as non-empty, base64-decodes the token, and builds the document
whose entries are keyed by the cluster name and the service-account name. -/
def generateKubeconfig (o : kubeconfigOptions) : Except GenError KubeconfigDoc :=
  if o.token.isEmpty then .error .emptyToken
  else if o.caCert.isEmpty then .error .emptyCACert
  else if o.apiServerEnpoint.isEmpty then .error .emptyAPIServerEnpoint
  else if o.clusterName.isEmpty then .error .emptyClusterName
  else
    match base64Decode o.token with
    | none => .error .tokenDecode
    | some tok =>
      .ok
        { clusters := [(o.clusterName,
            { server := o.apiServerEnpoint
              certificateAuthorityData := o.caCert })]
          contexts := [(o.clusterName,
            { cluster := o.clusterName
              authInfo := serviceAccountName
              namespaceName := DefaultManagedNamespace })]
          currentContext := o.clusterName
          authInfos := [(serviceAccountName, { token := tok })] }

/-! ### The serialized output format (`clientcmd.Write`)

Modelled from the spec: the serializer is an external collaborator whose
only contract is "deterministic given identical input document"; the bytes
are opaque. -/

/-- Modelled from the spec: deterministic serialization of the Derived
Configuration Document to opaque bytes (Go `clientcmd.Write`). -/
def writeKubeconfig (d : KubeconfigDoc) : String :=
  let cl := d.clusters.foldl
    (fun acc p => acc ++ "|cluster:" ++ p.1 ++ ":" ++ p.2.server ++ ":" ++
      p.2.certificateAuthorityData) ""
  let cx := d.contexts.foldl
    (fun acc p => acc ++ "|context:" ++ p.1 ++ ":" ++ p.2.cluster ++ ":" ++
      p.2.authInfo ++ ":" ++ p.2.namespaceName) ""
  let au := d.authInfos.foldl
    (fun acc p => acc ++ "|user:" ++ p.1 ++ ":" ++ p.2.token) ""
  cl ++ cx ++ au ++ "|current:" ++ d.currentContext

/-! ### Secrets and the store

Secrets of the managed namespace, keyed by name. `annots` models the
ObjectMeta `Annotations` map; `resourceVersion` is the store-assigned
revision, which in the model lives on the stored record rather than inside
the client-visible metadata because the store owns it (spec §4.4: the
protocol never assigns it; the store may). The `immutable` flag stands for
the secret fields outside `ObjectMeta`/`Data`/`Type` that the mutate
function of `reconcileKubeconfig` does not touch. -/

/-- Object metadata of a secret (the fields the program uses). -/
structure ObjectMeta where
  name : String
  namespaceName : String
  labels : List (String × String)
  annots : List (String × String)
  deriving Repr, DecidableEq

/-- A secret as seen by the client: metadata, payload data, type, and one
representative field outside the mutate function's assignments. -/
structure Secret where
  metadata : ObjectMeta
  data : List (String × String)
  type : String
  immutable : Bool
  deriving Repr, DecidableEq

/-- A secret as held by the store, together with its store-assigned revision. -/
structure StoredSecret where
  resourceVersion : Nat
  obj : Secret
  deriving Repr, DecidableEq

/-- The mutate callback passed to `CreateOrPatch` in
`reconcileKubeconfig` (kubeconfig.go lines 155-159): it assigns the whole
`ObjectMeta`, the `Data` map and the `Type` of the live object from the
desired copy, leaving the remaining fields of the live object alone. -/
def mutateSecret (desired existing : Secret) : Secret :=
  { existing with
    metadata := desired.metadata
    data := desired.data
    type := desired.type }

/-- A fresh store-assigned revision, larger than every revision in use. -/
def nextRV (store : List (String × StoredSecret)) : Nat :=
  store.foldl (fun a p => max a p.2.resourceVersion) 0 + 1

/-- The Idempotent Upsert Protocol (`controllerutil.CreateOrPatch` with the
mutate callback of kubeconfig.go, against the spec §6 store contract: the
mutator is applied to the latest read, then the result is written back; the
store-assigned revision stays store-owned). Absent: create the desired
secret under a fresh revision. Present: patch the stored object to the
mutated value in place. -/
def upsertStore (store : List (String × StoredSecret)) (desired : Secret) :
    List (String × StoredSecret) :=
  match lookupAssoc store desired.metadata.name with
  | none =>
    store ++ [(desired.metadata.name, { resourceVersion := nextRV store, obj := desired })]
  | some existing =>
    replaceAssoc store desired.metadata.name
      { existing with obj := mutateSecret desired existing.obj }

/-- The desired kubeconfig secret built by `reconcileKubeconfig`
(kubeconfig.go lines 140-152): name `<clusterName>-kubeconfig` in the
managed namespace, the cluster-name label, the serialized document under
key `value`, the cluster-api secret type. -/
def kubeconfigSecretFor (clusterName : String) (out : String) : Secret :=
  { metadata :=
      { name := clusterName ++ "-kubeconfig"
        namespaceName := DefaultManagedNamespace
        labels := [(ClusterLabelName, clusterName)]
        annots := [] }
    data := [("value", out)]
    type := ClusterSecretType
    immutable := false }

/-! ### The reconcile loop (`KubeconfigReconciler.Reconcile`) -/

/-- Platform status of the Infrastructure record (the field the program
reads: the platform type). -/
structure PlatformStatus where
  type : String
  deriving Repr, DecidableEq

/-- Status of the Infrastructure record. -/
structure InfrastructureStatus where
  platformStatus : Option PlatformStatus
  infrastructureName : String
  deriving Repr, DecidableEq

/-- The singleton primary Infrastructure record. -/
structure Infrastructure where
  status : InfrastructureStatus
  deriving Repr, DecidableEq

/-- A reference to a secret held by a service account. -/
structure ObjectReference where
  name : String
  deriving Repr, DecidableEq

/-- The service-account record: the secret references it carries. -/
structure ServiceAccount where
  secrets : List ObjectReference
  deriving Repr, DecidableEq

/-- Errors a reconcile attempt can surface (the causes handed to the
status writer). -/
inductive ReconcileError where
  | infraNotFound
  | serviceAccountNotFound
  | tokenSecretRefNotFound
  | tokenSecretNotFound
  | generate (e : GenError)
  deriving Repr, DecidableEq

/-- Modelled from the spec: the Aggregate Status Record as one summary
condition (the `operatorstatus` package is outside the excerpt; §4.5's
bounded-retry writer is modelled as an infallible state update, its retry
loop being an open question of the spec). -/
inductive OperatorStatusCond where
  | unset
  | available
  | degraded (cause : ReconcileError)
  deriving Repr, DecidableEq

/-- Reconciler configuration: the supported-platform set (a Go
`map[string]bool`, membership meaning key presence) and the REST host used
as API server endpoint. -/
structure ReconcilerCfg where
  supportedPlatforms : List (String × Bool)
  restCfgHost : String
  deriving Repr, DecidableEq

/-- The store state a reconcile invocation reads and writes: the singleton
Infrastructure record (under its fixed name), the operator service
account, the secrets of the managed namespace, and the aggregate status. -/
structure SysState where
  infra : Option Infrastructure
  serviceAccount : Option ServiceAccount
  secrets : List (String × StoredSecret)
  operatorStatus : OperatorStatusCond
  deriving Repr, DecidableEq

/-- The applicability gate of `Reconcile` (kubeconfig.go line 65): the
observed platform type is lowercased, then looked up as a key of the
supported-platform map; the boolean map value is never consulted, only
key presence. -/
def platformSupported (cfg : ReconcilerCfg) (platformType : String) : Bool :=
  (lookupAssoc cfg.supportedPlatforms (goToLower platformType)).isSome

/-- The token-secret search of `reconcileKubeconfig` (kubeconfig.go lines
98-104): scan the service account's secret references and keep the last
one whose name starts with `cluster-capi-operator-token`. -/
def findTokenSecretRef (refs : List ObjectReference) : Option ObjectReference :=
  refs.foldl
    (fun acc r =>
      if r.name.startsWith (serviceAccountName ++ "-token") then some r else acc)
    none

/-- `KubeconfigReconciler.reconcileKubeconfig` (kubeconfig.go lines
85-165): fetch the service account, find its token secret reference, fetch
the token secret, derive the kubeconfig from its `token` and `ca.crt`
entries and the REST host, serialize it, and upsert the kubeconfig secret.
Every failure leaves the store untouched; success returns the store with
the upserted secret. -/
def reconcileKubeconfig (cfg : ReconcilerCfg) (clusterName : String)
    (s : SysState) : Except ReconcileError SysState :=
  match s.serviceAccount with
  | none => .error .serviceAccountNotFound
  | some sa =>
    match findTokenSecretRef sa.secrets with
    | none => .error .tokenSecretRefNotFound
    | some ref =>
      match lookupAssoc s.secrets ref.name with
      | none => .error .tokenSecretNotFound
      | some tokenSecret =>
        match generateKubeconfig
          { token := (lookupAssoc tokenSecret.obj.data "token").getD ""
            caCert := (lookupAssoc tokenSecret.obj.data "ca.crt").getD ""
            apiServerEnpoint := cfg.restCfgHost
            clusterName := clusterName } with
        | .error e => .error (.generate e)
        | .ok doc =>
          .ok { s with
                secrets := upsertStore s.secrets (kubeconfigSecretFor clusterName (writeKubeconfig doc)) }

/-- `KubeconfigReconciler.Reconcile` (kubeconfig.go lines 44-83): fetch the
Infrastructure singleton (failure → Degraded with the cause, return the
error); if the platform status is absent or the platform type is not a
supported key, set Available and return success without touching secrets;
otherwise run `reconcileKubeconfig` and report its outcome. -/
def Reconcile (cfg : ReconcilerCfg) (s : SysState) :
    SysState × Except ReconcileError Unit :=
  match s.infra with
  | none => ({ s with operatorStatus := .degraded .infraNotFound }, .error .infraNotFound)
  | some infra =>
    match infra.status.platformStatus with
    | none => ({ s with operatorStatus := .available }, .ok ())
    | some ps =>
      if platformSupported cfg ps.type then
        match reconcileKubeconfig cfg infra.status.infrastructureName s with
        | .error e => ({ s with operatorStatus := .degraded e }, .error e)
        | .ok s' => ({ s' with operatorStatus := .available }, .ok ())
      else ({ s with operatorStatus := .available }, .ok ())

/-! ### The event filters (`watch_predicates.go`)

A change notification carries a runtime object; the filters inspect its
dynamic kind and name. The dynamic type is a tagged variant. -/

/-- A runtime object as seen by the filter layer: its dynamic kind and its
name (`otherKind` stands for every kind the filters do not match). -/
inductive KObject where
  | clusterOperator (name : String)
  | infrastructure (name : String)
  | featureGate (name : String)
  | otherKind (kind : String) (name : String)
  deriving Repr, DecidableEq

/-- The type-assertion-and-name check of `clusterOperatorPredicates`. -/
def isClusterOperatorCluster (o : KObject) : Bool :=
  match o with
  | .clusterOperator n => n == clusterOperatorName
  | _ => false

/-- The type-assertion-and-name check of `infrastructurePredicates`. -/
def isInfrastructureCluster (o : KObject) : Bool :=
  match o with
  | .infrastructure n => n == infrastructureResourceName
  | _ => false

/-- The type-assertion-and-name check of `featureGatePredicates`. -/
def isFeatureGateCluster (o : KObject) : Bool :=
  match o with
  | .featureGate n => n == externalFeatureGateName
  | _ => false

/-- A `predicate.Funcs` value: one admit decision per notification kind.
`updateFunc` receives the update's old and new snapshots. -/
structure PredicateFuncs where
  createFunc : KObject → Bool
  updateFunc : KObject → KObject → Bool
  deleteFunc : KObject → Bool
  genericFunc : KObject → Bool

/-- `clusterOperatorPredicates` (watch_predicates.go lines 18-30). -/
def clusterOperatorPredicates : PredicateFuncs :=
  { createFunc := fun o => isClusterOperatorCluster o
    updateFunc := fun _ onew => isClusterOperatorCluster onew
    deleteFunc := fun o => isClusterOperatorCluster o
    genericFunc := fun o => isClusterOperatorCluster o }

/-- `infrastructurePredicates` (watch_predicates.go lines 32-44). -/
def infrastructurePredicates : PredicateFuncs :=
  { createFunc := fun o => isInfrastructureCluster o
    updateFunc := fun _ onew => isInfrastructureCluster onew
    deleteFunc := fun o => isInfrastructureCluster o
    genericFunc := fun o => isInfrastructureCluster o }

/-- `featureGatePredicates` (watch_predicates.go lines 46-58). -/
def featureGatePredicates : PredicateFuncs :=
  { createFunc := fun o => isFeatureGateCluster o
    updateFunc := fun _ onew => isFeatureGateCluster onew
    deleteFunc := fun o => isFeatureGateCluster o
    genericFunc := fun o => isFeatureGateCluster o }

/-! ### Concrete sample values used by witnesses -/

/-- The options of the unit test `should generate kubeconfig`
(generate_test.go lines 13-20). -/
def kcTestOptions : kubeconfigOptions :=
  { token := "dGVzdA=="
    caCert := "dGVzdA=="
    apiServerEnpoint := "https://example.com"
    clusterName := "test" }

/-- A sample reconciler configuration supporting platform key `aws`. -/
def sampleCfg : ReconcilerCfg :=
  { supportedPlatforms := [("aws", true)]
    restCfgHost := "https://example.com" }

/-- A sample store state with no Infrastructure record. -/
def sampleStateNoInfra : SysState :=
  { infra := none
    serviceAccount := none
    secrets :=
      [("keep-me",
        { resourceVersion := 3
          obj :=
            { metadata :=
                { name := "keep-me"
                  namespaceName := DefaultManagedNamespace
                  labels := []
                  annots := [] }
              data := []
              type := "Opaque"
              immutable := false } })]
    operatorStatus := .unset }

/-- A sample store state whose Infrastructure record has no platform status. -/
def sampleStateNoPlatform : SysState :=
  { sampleStateNoInfra with
    infra := some { status := { platformStatus := none, infrastructureName := "test" } } }

/-- A stored kubeconfig secret that carries a metadata entry not set by the
protocol (the annotation pair `keep ↦ me`) under revision 7. -/
def sampleC6Existing : StoredSecret :=
  { resourceVersion := 7
    obj :=
      { metadata :=
          { name := "test-kubeconfig"
            namespaceName := DefaultManagedNamespace
            labels := [(ClusterLabelName, "test")]
            annots := [("keep", "me")] }
        data := [("value", "old-payload")]
        type := ClusterSecretType
        immutable := false } }

/-- A store holding only `sampleC6Existing`. -/
def sampleC6Store : List (String × StoredSecret) := [("test-kubeconfig", sampleC6Existing)]

/-! ## Helper lemmas -/

theorem asciiCaseVariantChars_map {xs ys : List Char}
    (h : asciiCaseVariantChars xs ys = true) :
    xs.map goCharToLower = ys.map goCharToLower := by
  induction xs generalizing ys with
  | nil =>
    cases ys with
    | nil => rfl
    | cons b tb => simp [asciiCaseVariantChars] at h
  | cons a ta ih =>
    cases ys with
    | nil => simp [asciiCaseVariantChars] at h
    | cons b tb =>
      simp only [asciiCaseVariantChars, Bool.and_eq_true, beq_iff_eq] at h
      simp [List.map, h.1, ih h.2]

theorem lookupAssoc_append_self {α : Type} (l : List (String × α)) (k : String) (v : α)
    (h : lookupAssoc l k = none) : lookupAssoc (l ++ [(k, v)]) k = some v := by
  induction l with
  | nil => simp [lookupAssoc]
  | cons p t ih =>
    by_cases hk : p.1 = k
    · simp [lookupAssoc, hk] at h
    · simp only [lookupAssoc, hk, if_false] at h ⊢
      simpa [lookupAssoc, hk] using ih h

theorem lookupAssoc_replaceAssoc_self {α : Type} (l : List (String × α)) (k : String)
    (v : α) (h : (lookupAssoc l k).isSome = true) :
    lookupAssoc (replaceAssoc l k v) k = some v := by
  induction l with
  | nil => simp [lookupAssoc] at h
  | cons p t ih =>
    by_cases hk : p.1 = k
    · simp [replaceAssoc, lookupAssoc, hk]
    · simp only [lookupAssoc, hk, if_false] at h
      simpa [replaceAssoc, lookupAssoc, hk] using ih h

theorem replaceAssoc_eq_of_lookup {α : Type} (l : List (String × α)) (k : String)
    (v : α) (h : lookupAssoc l k = some v) : replaceAssoc l k v = l := by
  induction l with
  | nil => rfl
  | cons p t ih =>
    obtain ⟨k1, v1⟩ := p
    by_cases hk : k1 = k
    · simp only [lookupAssoc, hk, if_true] at h
      obtain rfl : v1 = v := Option.some.inj h
      simp [replaceAssoc, hk]
    · simp only [lookupAssoc, hk, if_false] at h
      simp [replaceAssoc, hk, ih h]

theorem lookupAssoc_replaceAssoc_ne {α : Type} (l : List (String × α)) (k q : String)
    (v : α) (h : q ≠ k) :
    lookupAssoc (replaceAssoc l k v) q = lookupAssoc l q := by
  induction l with
  | nil => rfl
  | cons p t ih =>
    obtain ⟨k1, v1⟩ := p
    by_cases hk : k1 = k
    · have hq : ¬ k1 = q := fun he => h (he.symm.trans hk)
      simp only [replaceAssoc, if_pos hk, lookupAssoc, if_neg hq]
    · simp only [replaceAssoc, if_neg hk, lookupAssoc]
      by_cases hq : k1 = q
      · simp [hq]
      · simp [hq, ih]

theorem countKey_append {α : Type} (l m : List (String × α)) (k : String) :
    countKey (l ++ m) k = countKey l k + countKey m k := by
  simp [countKey, List.filter_append]

theorem countKey_eq_zero_of_lookup_none {α : Type} (l : List (String × α)) (k : String)
    (h : lookupAssoc l k = none) : countKey l k = 0 := by
  induction l with
  | nil => rfl
  | cons p t ih =>
    by_cases hk : p.1 = k
    · simp [lookupAssoc, hk] at h
    · simp only [lookupAssoc, hk, if_false] at h
      simp [countKey, List.filter, hk, countKey_eq_zero_of_lookup_none t k h] at ih ⊢
      exact ih h

theorem countKey_eq_zero_of_not_mem {α : Type} (l : List (String × α)) (k : String)
    (h : k ∉ l.map Prod.fst) : countKey l k = 0 := by
  induction l with
  | nil => rfl
  | cons p t ih =>
    simp only [List.map, List.mem_cons, not_or] at h
    have hk : ¬ p.1 = k := fun he => h.1 he.symm
    simpa [countKey, List.filter, hk] using ih h.2

theorem countKey_eq_one_of_nodup {α : Type} (l : List (String × α)) (k : String)
    (hnd : (l.map Prod.fst).Nodup) (h : (lookupAssoc l k).isSome = true) :
    countKey l k = 1 := by
  induction l with
  | nil => simp [lookupAssoc] at h
  | cons p t ih =>
    simp only [List.map, List.nodup_cons] at hnd
    by_cases hk : p.1 = k
    · subst hk
      have : countKey t p.1 = 0 := countKey_eq_zero_of_not_mem t p.1 hnd.1
      simp [countKey, List.filter] at this ⊢
      exact this
    · simp only [lookupAssoc, hk, if_false] at h
      simpa [countKey, List.filter, hk] using ih hnd.2 h

theorem countKey_replaceAssoc {α : Type} (l : List (String × α)) (k q : String) (v : α) :
    countKey (replaceAssoc l k v) q = countKey l q := by
  induction l with
  | nil => rfl
  | cons p t ih =>
    obtain ⟨k1, v1⟩ := p
    by_cases hk : k1 = k
    · simp only [replaceAssoc, if_pos hk, countKey, List.filter_cons]
      by_cases hq : k1 = q <;> simp [hq]
    · simp only [countKey] at ih
      simp only [replaceAssoc, if_neg hk, countKey, List.filter_cons]
      by_cases hq : k1 = q <;> simp [hq, ih]

theorem upsertStore_of_lookup_none (store : List (String × StoredSecret)) (d : Secret)
    (h : lookupAssoc store d.metadata.name = none) :
    upsertStore store d =
      store ++ [(d.metadata.name, { resourceVersion := nextRV store, obj := d })] := by
  simp only [upsertStore, h]

theorem upsertStore_of_lookup_some (store : List (String × StoredSecret)) (d : Secret)
    (e : StoredSecret) (h : lookupAssoc store d.metadata.name = some e) :
    upsertStore store d =
      replaceAssoc store d.metadata.name { e with obj := mutateSecret d e.obj } := by
  simp only [upsertStore, h]

theorem upsertStore_idem (store : List (String × StoredSecret)) (d : Secret) :
    upsertStore (upsertStore store d) d = upsertStore store d := by
  cases hl : lookupAssoc store d.metadata.name with
  | none =>
    rw [upsertStore_of_lookup_none store d hl]
    have h2 : lookupAssoc
        (store ++ [(d.metadata.name, { resourceVersion := nextRV store, obj := d })])
        d.metadata.name = some { resourceVersion := nextRV store, obj := d } :=
      lookupAssoc_append_self store _ _ hl
    rw [upsertStore_of_lookup_some _ d _ h2]
    exact replaceAssoc_eq_of_lookup _ _ _ (by exact h2)
  | some e =>
    rw [upsertStore_of_lookup_some store d e hl]
    have h2 : lookupAssoc
        (replaceAssoc store d.metadata.name { e with obj := mutateSecret d e.obj })
        d.metadata.name = some { e with obj := mutateSecret d e.obj } :=
      lookupAssoc_replaceAssoc_self store _ _ (by rw [hl]; rfl)
    rw [upsertStore_of_lookup_some _ d _ h2]
    exact replaceAssoc_eq_of_lookup _ _ _ (by exact h2)

theorem upsertStore_countKey_one (store : List (String × StoredSecret)) (d : Secret)
    (hnd : (store.map Prod.fst).Nodup) :
    countKey (upsertStore store d) d.metadata.name = 1 := by
  cases hl : lookupAssoc store d.metadata.name with
  | none =>
    rw [upsertStore_of_lookup_none store d hl, countKey_append,
      countKey_eq_zero_of_lookup_none store _ hl]
    simp [countKey, List.filter_cons]
  | some e =>
    rw [upsertStore_of_lookup_some store d e hl, countKey_replaceAssoc]
    exact countKey_eq_one_of_nodup store _ hnd (by rw [hl]; rfl)

/-! ## Claim theorems -/

/-- C1 (counterexample): at the unit-test input, all four inputs are
non-empty, yet the produced auth entry's token is `test`, not the token
input `dGVzdA==` — the token is not echoed exactly; and for the non-empty
token `****` (not valid base64) the call fails, so success does not hold
for all non-empty inputs either. -/
theorem c1_exact_echo_counterexample :
    generateKubeconfig kcTestOptions =
      .ok
        { clusters := [("test",
            { server := "https://example.com"
              certificateAuthorityData := "dGVzdA==" })]
          contexts := [("test",
            { cluster := "test"
              authInfo := serviceAccountName
              namespaceName := DefaultManagedNamespace })]
          currentContext := "test"
          authInfos := [(serviceAccountName, { token := "test" })] } ∧
    ("test" : String) ≠ kcTestOptions.token ∧
    kcTestOptions.token.isEmpty = false ∧
    generateKubeconfig { kcTestOptions with token := "****" } = .error .tokenDecode ∧
    ("****" : String).isEmpty = false :=
  ⟨rfl, by decide, rfl, rfl, rfl⟩

/-- C1 (amended): whenever all four inputs are non-empty and the token
bytes are a valid standard-base64 encoding, `generateKubeconfig` succeeds,
its cluster entry (named by the cluster name) carries the endpoint and the
CA bytes, its context (named by the cluster name) binds that cluster, and
its auth entry's token is the base64 decoding of the token input. -/
theorem c1_generate_echoes_with_decoded_token (o : kubeconfigOptions) (tok : String)
    (h1 : o.token.isEmpty = false) (h2 : o.caCert.isEmpty = false)
    (h3 : o.apiServerEnpoint.isEmpty = false) (h4 : o.clusterName.isEmpty = false)
    (hdec : base64Decode o.token = some tok) :
    generateKubeconfig o =
      .ok
        { clusters := [(o.clusterName,
            { server := o.apiServerEnpoint
              certificateAuthorityData := o.caCert })]
          contexts := [(o.clusterName,
            { cluster := o.clusterName
              authInfo := serviceAccountName
              namespaceName := DefaultManagedNamespace })]
          currentContext := o.clusterName
          authInfos := [(serviceAccountName, { token := tok })] } := by
  simp [generateKubeconfig, h1, h2, h3, h4, hdec]

/-- C1 (witness): the amended statement instantiated at the unit-test
input. -/
theorem c1_generate_echoes_with_decoded_token_witness :
    kcTestOptions.token.isEmpty = false ∧
    kcTestOptions.caCert.isEmpty = false ∧
    kcTestOptions.apiServerEnpoint.isEmpty = false ∧
    kcTestOptions.clusterName.isEmpty = false ∧
    base64Decode kcTestOptions.token = some "test" ∧
    generateKubeconfig kcTestOptions =
      .ok
        { clusters := [("test",
            { server := "https://example.com"
              certificateAuthorityData := "dGVzdA==" })]
          contexts := [("test",
            { cluster := "test"
              authInfo := serviceAccountName
              namespaceName := DefaultManagedNamespace })]
          currentContext := "test"
          authInfos := [(serviceAccountName, { token := "test" })] } :=
  ⟨rfl, rfl, rfl, rfl, rfl,
    c1_generate_echoes_with_decoded_token kcTestOptions "test" rfl rfl rfl rfl rfl⟩

/-- C2: on token `dGVzdA==`, CA `dGVzdA==`, endpoint
`https://example.com`, cluster name `test`, the Derivation Function
succeeds and produces exactly the document with cluster entry `test`
(that server, that CA), context entry `test` (cluster `test`, auth-info
`cluster-capi-operator`, the fixed managed namespace) and auth entry
`cluster-capi-operator` with token `test`. -/
theorem c2_generate_concrete_document :
    generateKubeconfig kcTestOptions =
      .ok
        { clusters := [("test",
            { server := "https://example.com"
              certificateAuthorityData := "dGVzdA==" })]
          contexts := [("test",
            { cluster := "test"
              authInfo := "cluster-capi-operator"
              namespaceName := DefaultManagedNamespace })]
          currentContext := "test"
          authInfos := [("cluster-capi-operator", { token := "test" })] } := rfl

/-- C3: whenever any one of the four inputs is empty, `generateKubeconfig`
returns a field-identifying validation error and no document. -/
theorem c3_empty_input_fails (o : kubeconfigOptions)
    (h : o.token.isEmpty = true ∨ o.caCert.isEmpty = true ∨
         o.apiServerEnpoint.isEmpty = true ∨ o.clusterName.isEmpty = true) :
    ∃ e : GenError, generateKubeconfig o = .error e ∧ e.emptyField = true := by
  by_cases h1 : o.token.isEmpty
  · exact ⟨.emptyToken, by simp [generateKubeconfig, h1], rfl⟩
  by_cases h2 : o.caCert.isEmpty
  · exact ⟨.emptyCACert, by simp [generateKubeconfig, h1, h2], rfl⟩
  by_cases h3 : o.apiServerEnpoint.isEmpty
  · exact ⟨.emptyAPIServerEnpoint, by simp [generateKubeconfig, h1, h2, h3], rfl⟩
  by_cases h4 : o.clusterName.isEmpty
  · exact ⟨.emptyClusterName, by simp [generateKubeconfig, h1, h2, h3, h4], rfl⟩
  · simp [h1, h2, h3, h4] at h

/-- C3 (witness): an empty token with all other inputs present fails with
a field-identifying error. -/
theorem c3_empty_input_fails_witness :
    (({ token := "", caCert := "x", apiServerEnpoint := "y", clusterName := "z" } :
        kubeconfigOptions).token.isEmpty = true ∨
      ({ token := "", caCert := "x", apiServerEnpoint := "y", clusterName := "z" } :
        kubeconfigOptions).caCert.isEmpty = true ∨
      ({ token := "", caCert := "x", apiServerEnpoint := "y", clusterName := "z" } :
        kubeconfigOptions).apiServerEnpoint.isEmpty = true ∨
      ({ token := "", caCert := "x", apiServerEnpoint := "y", clusterName := "z" } :
        kubeconfigOptions).clusterName.isEmpty = true) ∧
    ∃ e : GenError,
      generateKubeconfig
        { token := "", caCert := "x", apiServerEnpoint := "y", clusterName := "z" } =
        .error e ∧ e.emptyField = true :=
  ⟨Or.inl rfl, c3_empty_input_fails _ (Or.inl rfl)⟩

/-- C4: when the Infrastructure singleton cannot be read, `Reconcile`
writes the Degraded condition with the underlying cause, returns the
error, and touches nothing else — in particular, the secrets of the store
are exactly as before. -/
theorem c4_infra_fetch_failure_degrades (cfg : ReconcilerCfg) (s : SysState)
    (h : s.infra = none) :
    Reconcile cfg s =
      ({ s with operatorStatus := .degraded .infraNotFound }, .error .infraNotFound) ∧
    (Reconcile cfg s).1.secrets = s.secrets := by
  constructor
  · simp [Reconcile, h]
  · simp [Reconcile, h]

/-- C4 (witness): the theorem at a concrete store state with no
Infrastructure record and a pre-existing unrelated secret. -/
theorem c4_infra_fetch_failure_degrades_witness :
    sampleStateNoInfra.infra = none ∧
    (Reconcile sampleCfg sampleStateNoInfra =
      ({ sampleStateNoInfra with operatorStatus := .degraded .infraNotFound },
        .error .infraNotFound) ∧
    (Reconcile sampleCfg sampleStateNoInfra).1.secrets = sampleStateNoInfra.secrets) :=
  ⟨rfl, c4_infra_fetch_failure_degrades sampleCfg sampleStateNoInfra rfl⟩

/-- C5: when the Infrastructure record is readable but its platform status
is absent, or its platform type is not a key of the supported-platform
set, `Reconcile` sets the status to Available, returns success, and the
secrets of the store are exactly as before. -/
theorem c5_inapplicable_platform_noop (cfg : ReconcilerCfg) (s : SysState)
    (infra : Infrastructure) (h : s.infra = some infra)
    (hgate : infra.status.platformStatus = none ∨
      ∃ ps, infra.status.platformStatus = some ps ∧ platformSupported cfg ps.type = false) :
    Reconcile cfg s = ({ s with operatorStatus := .available }, .ok ()) ∧
    (Reconcile cfg s).1.secrets = s.secrets := by
  rcases hgate with hnone | ⟨ps, hps, hsup⟩
  · constructor <;> simp [Reconcile, h, hnone]
  · constructor <;> simp [Reconcile, h, hps, hsup]

/-- C5 (witness): the theorem at a concrete store state whose
Infrastructure record has no platform status. -/
theorem c5_inapplicable_platform_noop_witness :
    sampleStateNoPlatform.infra =
      some { status := { platformStatus := none, infrastructureName := "test" } } ∧
    (Reconcile sampleCfg sampleStateNoPlatform =
      ({ sampleStateNoPlatform with operatorStatus := .available }, .ok ()) ∧
    (Reconcile sampleCfg sampleStateNoPlatform).1.secrets = sampleStateNoPlatform.secrets) :=
  ⟨rfl,
    c5_inapplicable_platform_noop sampleCfg sampleStateNoPlatform
      { status := { platformStatus := none, infrastructureName := "test" } }
      rfl (Or.inl rfl)⟩

/-- C8: each notification handler of `clusterOperatorPredicates` and
`infrastructurePredicates` admits exactly the objects that are of the
filtered kind and bear the fixed singleton name (for updates, judged on
the new snapshot); every other object is rejected. The handlers are total
boolean functions, so no input yields an error. -/
theorem c8_filter_admits_iff_singleton (o old : KObject) :
    (clusterOperatorPredicates.createFunc o = true ↔
      o = .clusterOperator clusterOperatorName) ∧
    (clusterOperatorPredicates.updateFunc old o = true ↔
      o = .clusterOperator clusterOperatorName) ∧
    (clusterOperatorPredicates.deleteFunc o = true ↔
      o = .clusterOperator clusterOperatorName) ∧
    (clusterOperatorPredicates.genericFunc o = true ↔
      o = .clusterOperator clusterOperatorName) ∧
    (infrastructurePredicates.createFunc o = true ↔
      o = .infrastructure infrastructureResourceName) ∧
    (infrastructurePredicates.updateFunc old o = true ↔
      o = .infrastructure infrastructureResourceName) ∧
    (infrastructurePredicates.deleteFunc o = true ↔
      o = .infrastructure infrastructureResourceName) ∧
    (infrastructurePredicates.genericFunc o = true ↔
      o = .infrastructure infrastructureResourceName) := by
  cases o <;>
    simp [clusterOperatorPredicates, infrastructurePredicates,
      isClusterOperatorCluster, isInfrastructureCluster]

/-- C9: the update handler of every predicate family is a function of the
new snapshot only — the old snapshot never changes the decision. -/
theorem c9_update_filter_ignores_old (onew old1 old2 : KObject) :
    clusterOperatorPredicates.updateFunc old1 onew =
      clusterOperatorPredicates.updateFunc old2 onew ∧
    infrastructurePredicates.updateFunc old1 onew =
      infrastructurePredicates.updateFunc old2 onew ∧
    featureGatePredicates.updateFunc old1 onew =
      featureGatePredicates.updateFunc old2 onew :=
  ⟨rfl, rfl, rfl⟩

/-- C10: the applicability gate lowercases the observed platform type
before looking it up, so two platform types differing only in (ASCII)
letter case always yield the same proceed-versus-skip decision. -/
theorem c10_gate_case_insensitive (cfg : ReconcilerCfg) (t1 t2 : String)
    (h : asciiCaseVariant t1 t2 = true) :
    platformSupported cfg t1 = platformSupported cfg t2 := by
  have hmap : t1.toList.map goCharToLower = t2.toList.map goCharToLower :=
    asciiCaseVariantChars_map h
  unfold platformSupported goToLower
  rw [hmap]

/-- C10 (witness): `AWS` and `aws` receive the same gate decision. -/
theorem c10_gate_case_insensitive_witness :
    asciiCaseVariant "AWS" "aws" = true ∧
    platformSupported sampleCfg "AWS" = platformSupported sampleCfg "aws" :=
  ⟨by decide, c10_gate_case_insensitive sampleCfg "AWS" "aws" (by decide)⟩

/-- C6 (counterexample): upserting the desired kubeconfig secret over an
existing record that carries the metadata entry `keep ↦ me` removes that
entry (the mutate callback assigns the whole `ObjectMeta` from the desired
copy), so fields outside the protocol's ownership are not all preserved. -/
theorem c6_metadata_wipe_counterexample :
    (lookupAssoc (upsertStore sampleC6Store (kubeconfigSecretFor "test" "payload"))
        "test-kubeconfig").map (fun r => r.obj.metadata.annots) =
      some [] ∧
    sampleC6Existing.obj.metadata.annots = [("keep", "me")] ∧
    ([] : List (String × String)) ≠ [("keep", "me")] :=
  ⟨rfl, rfl, by decide⟩

/-- C6 (amended): when the secondary secret record exists, the upsert
replaces its whole metadata, payload data, and type with the desired
values — so labels and data reach the desired state, but metadata entries
not set by the protocol (such as annotations) are replaced away rather
than preserved — while the store-assigned revision, the secret fields
outside the mutate callback's assignments, and every other store entry
keep the values they had before the upsert. -/
theorem c6_upsert_patch_frame (store : List (String × StoredSecret)) (desired : Secret)
    (existing : StoredSecret)
    (h : lookupAssoc store desired.metadata.name = some existing) :
    lookupAssoc (upsertStore store desired) desired.metadata.name =
      some
        { resourceVersion := existing.resourceVersion
          obj :=
            { metadata := desired.metadata
              data := desired.data
              type := desired.type
              immutable := existing.obj.immutable } } ∧
    ∀ k, k ≠ desired.metadata.name →
      lookupAssoc (upsertStore store desired) k = lookupAssoc store k := by
  rw [upsertStore_of_lookup_some store desired existing h]
  constructor
  · exact lookupAssoc_replaceAssoc_self store _ _ (by rw [h]; rfl)
  · intro k hk
    exact lookupAssoc_replaceAssoc_ne store _ k _ hk

/-- C6 (witness): the amended statement instantiated at the sample store
whose stored secret has revision 7 and an unrelated metadata entry. -/
theorem c6_upsert_patch_frame_witness :
    lookupAssoc sampleC6Store (kubeconfigSecretFor "test" "payload").metadata.name =
      some sampleC6Existing ∧
    (lookupAssoc (upsertStore sampleC6Store (kubeconfigSecretFor "test" "payload"))
        (kubeconfigSecretFor "test" "payload").metadata.name =
      some
        { resourceVersion := sampleC6Existing.resourceVersion
          obj :=
            { metadata := (kubeconfigSecretFor "test" "payload").metadata
              data := (kubeconfigSecretFor "test" "payload").data
              type := (kubeconfigSecretFor "test" "payload").type
              immutable := sampleC6Existing.obj.immutable } } ∧
    ∀ k, k ≠ (kubeconfigSecretFor "test" "payload").metadata.name →
      lookupAssoc (upsertStore sampleC6Store (kubeconfigSecretFor "test" "payload")) k =
        lookupAssoc sampleC6Store k) :=
  ⟨rfl, c6_upsert_patch_frame sampleC6Store (kubeconfigSecretFor "test" "payload")
    sampleC6Existing rfl⟩

/-- C7: upserting the same desired kubeconfig secret twice in sequence
yields the same store as upserting it once, and the final store holds
exactly one record under the deterministic key `<clusterName>-kubeconfig`;
the desired record indeed bears that name and lives in the fixed managed
namespace. -/
theorem c7_upsert_idempotent (store : List (String × StoredSecret)) (cn out : String)
    (hnd : (store.map Prod.fst).Nodup) :
    upsertStore (upsertStore store (kubeconfigSecretFor cn out))
        (kubeconfigSecretFor cn out) =
      upsertStore store (kubeconfigSecretFor cn out) ∧
    countKey
        (upsertStore (upsertStore store (kubeconfigSecretFor cn out))
          (kubeconfigSecretFor cn out))
        (cn ++ "-kubeconfig") = 1 ∧
    (kubeconfigSecretFor cn out).metadata.name = cn ++ "-kubeconfig" ∧
    (kubeconfigSecretFor cn out).metadata.namespaceName = DefaultManagedNamespace := by
  refine ⟨upsertStore_idem store _, ?_, rfl, rfl⟩
  rw [upsertStore_idem store _]
  exact upsertStore_countKey_one store _ hnd

/-- C7 (witness): the theorem at the empty store and cluster name `test`. -/
theorem c7_upsert_idempotent_witness :
    (([] : List (String × StoredSecret)).map Prod.fst).Nodup ∧
    (upsertStore (upsertStore [] (kubeconfigSecretFor "test" "x"))
        (kubeconfigSecretFor "test" "x") =
      upsertStore [] (kubeconfigSecretFor "test" "x") ∧
    countKey
        (upsertStore (upsertStore [] (kubeconfigSecretFor "test" "x"))
          (kubeconfigSecretFor "test" "x"))
        ("test" ++ "-kubeconfig") = 1 ∧
    (kubeconfigSecretFor "test" "x").metadata.name = "test" ++ "-kubeconfig" ∧
    (kubeconfigSecretFor "test" "x").metadata.namespaceName = DefaultManagedNamespace) :=
  ⟨List.nodup_nil, c7_upsert_idempotent [] "test" "x" List.nodup_nil⟩

end CapiOperator
